import Mathlib

/-!
Verification of the SMB2 NEGOTIATE response decoder/validator
(package `smbnego`, file `response.go`).

The byte buffer is modelled as a `List Nat` whose entries stand for bytes;
every read applies `% 256`, matching the range of Go's `byte` type.
Multi-byte fields are little-endian, as in the source's use of
`binary.LittleEndian`.  Go's `uint`/`int` are 64-bit on the supported
platforms; the widened sums in `Valid` are therefore modelled as plain `Nat`
arithmetic and the absence of wraparound is proved separately.

Collaborators of the source file that live in the same repository but in
other packages (the dialect enumeration, the context-list view, the
identifier and timestamp codecs) are modelled from the specification and
documented as such; the context-list validity predicate is an explicit
parameter `cl` of `Valid`.
-/

namespace Smbnego

/-- One byte of the buffer: out-of-range positions read as `0` (the pure
model; the instrumented `ValidChecked` below accounts for Go's bounds
panics), and values are reduced mod 256 as Go bytes are. -/
def readByte (r : List Nat) (i : Nat) : Nat :=
  (r[i]?.getD 0) % 256

/-- Little-endian decoding of `w` bytes starting at `off`, mirroring
`binary.LittleEndian.Uint16/Uint32/Uint64`. -/
def readLE (r : List Nat) (off : Nat) : Nat → Nat
  | 0 => 0
  | w + 1 => readByte r off + 256 * readLE r (off + 1) w

/-- The `w` little-endian bytes of `v`, mirroring
`binary.LittleEndian.PutUint16/PutUint32/PutUint64`. -/
def toBytes : Nat → Nat → List Nat
  | 0, _ => []
  | w + 1, v => v % 256 :: toBytes w (v / 256)

/-- Store the byte list `bs` into the buffer starting at `off`. -/
def writeBytes (r : List Nat) (off : Nat) : List Nat → List Nat
  | [] => r
  | b :: bs => writeBytes (r.set off b) (off + 1) bs

/-- Little-endian encoding of `v` over `w` bytes at `off`. -/
def writeLE (r : List Nat) (off w v : Nat) : List Nat :=
  writeBytes r off (toBytes w v)

/-- Go slice expression `r[a:b]`. -/
def goSlice (r : List Nat) (a b : Nat) : List Nat :=
  (r.take b).drop a

/-- Modelled from the spec: the sentinel value of the "newest dialect"
(SMB 3.1.1) in the dialect-revision enumeration (`smbdialect.SMB311`,
outside `src/`); a 16-bit enumerated value. -/
def SMB311 : Nat := 0x0311

/-- Modelled from the spec: the minimum size of one negotiation context
record (`ContextHeaderLength`, declared elsewhere in package `smbnego`,
outside `src/`): header-only, 8 bytes. -/
def ContextHeaderLength : Nat := 8

/-- `func (r Response) Size() uint16`. -/
def Size (r : List Nat) : Nat := readLE r 0 2

/-- `func (r Response) SetSize(size uint16)`. -/
def SetSize (r : List Nat) (v : Nat) : List Nat := writeLE r 0 2 v

/-- `func (r Response) SecurityMode() smbsecmode.Flags` (a 16-bit flag set). -/
def SecurityMode (r : List Nat) : Nat := readLE r 2 2

/-- `func (r Response) SetSecurityMode(flags smbsecmode.Flags)`. -/
def SetSecurityMode (r : List Nat) (v : Nat) : List Nat := writeLE r 2 2 v

/-- `func (r Response) DialectRevision() smbdialect.Revision` (16-bit). -/
def DialectRevision (r : List Nat) : Nat := readLE r 4 2

/-- `func (r Response) SetDialectRevision(revision smbdialect.Revision)`. -/
def SetDialectRevision (r : List Nat) (v : Nat) : List Nat := writeLE r 4 2 v

/-- `func (r Response) ContextCount() uint16`. -/
def ContextCount (r : List Nat) : Nat := readLE r 6 2

/-- `func (r Response) SetContextCount(size uint16)`. -/
def SetContextCount (r : List Nat) (v : Nat) : List Nat := writeLE r 6 2 v

/-- `func (r Response) ServerID() smbid.ID`.  Modelled from the spec: the
identifier is a 16-byte opaque value read from `r[8:24]`
(`smbid.ID.Read`, outside `src/`). -/
def ServerID (r : List Nat) : List Nat :=
  (goSlice r 8 24).map (· % 256)

/-- `func (r Response) SetServerID(id smbid.ID)`.  Modelled from the spec:
writes the 16 identifier bytes into `r[8:24]` (`smbid.ID.Write`,
outside `src/`). -/
def SetServerID (r : List Nat) (id : List Nat) : List Nat :=
  writeBytes r 8 (id.take 16)

/-- `func (r Response) Capabilities() smbcap.Flags` (a 32-bit flag set). -/
def Capabilities (r : List Nat) : Nat := readLE r 24 4

/-- `func (r Response) SetCapabilities(flags smbcap.Flags)`. -/
def SetCapabilities (r : List Nat) (v : Nat) : List Nat := writeLE r 24 4 v

/-- `func (r Response) MaxTransactSize() uint32`. -/
def MaxTransactSize (r : List Nat) : Nat := readLE r 28 4

/-- `func (r Response) SetMaxTransactSize(flags uint32)`. -/
def SetMaxTransactSize (r : List Nat) (v : Nat) : List Nat := writeLE r 28 4 v

/-- `func (r Response) MaxReadSize() uint32`. -/
def MaxReadSize (r : List Nat) : Nat := readLE r 32 4

/-- `func (r Response) SetMaxReadSize(flags uint32)`. -/
def SetMaxReadSize (r : List Nat) (v : Nat) : List Nat := writeLE r 32 4 v

/-- `func (r Response) MaxWriteSize() uint32`. -/
def MaxWriteSize (r : List Nat) : Nat := readLE r 36 4

/-- `func (r Response) SetMaxWriteSize(flags uint32)`. -/
def SetMaxWriteSize (r : List Nat) (v : Nat) : List Nat := writeLE r 36 4 v

/-- `func (r Response) SystemTime() time.Time`.  Modelled from the spec:
the timestamp collaborator (`smbtype.Time`, outside `src/`) decodes an
8-byte little-endian tick count; the timestamp is represented here by that
tick count, so equality is equality at the collaborator's tick
resolution. -/
def SystemTime (r : List Nat) : Nat := readLE r 40 8

/-- `func (r Response) SetSystemTime(t time.Time)`.  Modelled from the
spec: `smbtype.PutTime` encodes the tick count over 8 bytes. -/
def SetSystemTime (r : List Nat) (v : Nat) : List Nat := writeLE r 40 8 v

/-- `func (r Response) ServerStartTime() time.Time` (same tick model as
`SystemTime`). -/
def ServerStartTime (r : List Nat) : Nat := readLE r 48 8

/-- `func (r Response) SetServerStartTime(t time.Time)`. -/
def SetServerStartTime (r : List Nat) (v : Nat) : List Nat := writeLE r 48 8 v

/-- `func (r Response) SecurityBufferOffset() uint16`. -/
def SecurityBufferOffset (r : List Nat) : Nat := readLE r 56 2

/-- `func (r Response) SetSecurityBufferOffset(offset uint16)`. -/
def SetSecurityBufferOffset (r : List Nat) (v : Nat) : List Nat := writeLE r 56 2 v

/-- `func (r Response) SecurityBufferLength() uint16`. -/
def SecurityBufferLength (r : List Nat) : Nat := readLE r 58 2

/-- `func (r Response) SetSecurityBufferLength(length uint16)`. -/
def SetSecurityBufferLength (r : List Nat) (v : Nat) : List Nat := writeLE r 58 2 v

/-- `func (r Response) ContextOffset() uint32`. -/
def ContextOffset (r : List Nat) : Nat := readLE r 60 4

/-- `func (r Response) SetContextOffset(size uint32)`. -/
def SetContextOffset (r : List Nat) (v : Nat) : List Nat := writeLE r 60 4 v

/-- `func (r Response) SecurityBuffer() []byte`:
`start := uint(r.SecurityBufferOffset()); length := uint(r.SecurityBufferLength());
end := start + length; return r[start:end:end]`. -/
def SecurityBuffer (r : List Nat) : List Nat :=
  goSlice r (SecurityBufferOffset r)
    (SecurityBufferOffset r + SecurityBufferLength r)

/-- `func (r Response) ContextList() ContextList`:
`return ContextList(r[r.ContextOffset():])`. -/
def ContextList (r : List Nat) : List Nat :=
  r.drop (ContextOffset r)

/-- `func (r Response) Valid() bool`.  The context-list collaborator's
validity predicate (`ContextList.Valid`, declared elsewhere in package
`smbnego`, outside `src/`) is the parameter `cl`, taking the context-list
view and the declared count.  Go's `int`/`uint` are 64-bit; the two sums
below are computed on values bounded by `2^16 + 2^16` and
`2^32 + 2^16 * 8` respectively, so the 64-bit arithmetic never wraps and
plain `Nat` arithmetic is the faithful translation (proved as part of the
claims below). -/
def Valid (cl : List Nat → Nat → Bool) (r : List Nat) : Bool :=
  if r.length < 64 then
    false
  else if Size r ≠ 65 then
    false
  else if SecurityBufferOffset r + SecurityBufferLength r > r.length then
    false
  else if DialectRevision r = SMB311 then
    if ContextOffset r + ContextCount r * ContextHeaderLength > r.length then
      false
    else if ¬ cl (ContextList r) (ContextCount r) then
      false
    else
      true
  else
    true

/-- A bounds-checked fixed-width read, mirroring Go slice-expression
semantics: `r[off : off+w]` panics (here: `none`) unless the range lies in
the buffer, and otherwise yields the decoded value together with the
(unchanged) memory. -/
def readN (r : List Nat) (off w : Nat) : Option (Nat × List Nat) :=
  if off + w ≤ r.length then some (readLE r off w, r) else none

/-- A bounds-checked tail slice, mirroring Go's `r[off:]`: panics (`none`)
unless `off ≤ len(r)`. -/
def dropN (r : List Nat) (off : Nat) : Option (List Nat × List Nat) :=
  if off ≤ r.length then some (r.drop off, r) else none

/-- Instrumented execution of `Valid`: the same checks in the same order
as the source, but every byte access goes through the bounds-checked
`readN`/`dropN` primitives and the memory is threaded through
explicitly.  It performs exactly the accesses the Go code performs,
including the repeated `ContextOffset`/`ContextCount` reads made by
`r.ContextList().Valid(r.ContextCount())`. -/
def ValidChecked (cl : List Nat → Nat → Bool) (r : List Nat) :
    Option (Bool × List Nat) :=
  if r.length < 64 then some (false, r) else
  (readN r 0 2).bind fun sz =>
  if sz.1 ≠ 65 then some (false, sz.2) else
  (readN sz.2 56 2).bind fun sbo =>
  (readN sbo.2 58 2).bind fun sbl =>
  if sbo.1 + sbl.1 > sbl.2.length then some (false, sbl.2) else
  (readN sbl.2 4 2).bind fun dr =>
  if dr.1 = SMB311 then
    (readN dr.2 60 4).bind fun co =>
    (readN co.2 6 2).bind fun cc =>
    if co.1 + cc.1 * ContextHeaderLength > cc.2.length then some (false, cc.2) else
    (readN cc.2 60 4).bind fun co2 =>
    (dropN co2.2 co2.1).bind fun tl =>
    (readN tl.2 6 2).bind fun cc2 =>
    if ¬ cl tl.1 cc2.1 then some (false, cc2.2) else
    some (true, cc2.2)
  else
    some (true, dr.2)

/-- An always-accepting stand-in for the context-list collaborator,
used to evaluate `Valid` on concrete buffers. -/
def clTrue : List Nat → Nat → Bool := fun _ _ => true

/-- A 64-byte response: StructureSize 65, dialect 0x0202 (pre-3.1.1),
SecurityBufferOffset 64, SecurityBufferLength 0. -/
def bufA : List Nat :=
  [65, 0, 0, 0, 2, 2, 0, 0] ++ List.replicate 48 0 ++ [64, 0, 0, 0, 0, 0, 0, 0]

/-- A 64-byte SMB 3.1.1 response: StructureSize 65, ContextCount 0,
ContextOffset 64, empty security buffer. -/
def bufB : List Nat :=
  [65, 0, 0, 0, 17, 3, 0, 0] ++ List.replicate 48 0 ++ [0, 0, 0, 0, 64, 0, 0, 0]

/-- An 80-byte SMB 3.1.1 response: StructureSize 65, ContextCount 2,
ContextOffset 64, 16 bytes of context data. -/
def bufC : List Nat :=
  [65, 0, 0, 0, 17, 3, 2, 0] ++ List.replicate 48 0 ++ [0, 0, 0, 0, 64, 0, 0, 0]
    ++ List.replicate 16 0

/-- A 64-byte buffer whose StructureSize field holds 66. -/
def bufD : List Nat := [66, 0] ++ List.replicate 62 0

/-- A 66-byte response with a two-byte security buffer at offset 64. -/
def bufE : List Nat :=
  [65, 0] ++ List.replicate 54 0 ++ [64, 0, 2, 0, 0, 0, 0, 0] ++ [9, 10]

/-- Writing bytes never changes the buffer's length. -/
theorem length_writeBytes (bs : List Nat) (r : List Nat) (off : Nat) :
    (writeBytes r off bs).length = r.length := by
  induction bs generalizing r off with
  | nil => rfl
  | cons b bs ih => rw [writeBytes, ih, List.length_set]

/-- `toBytes w v` produces exactly `w` bytes. -/
theorem length_toBytes (w : Nat) : ∀ v, (toBytes w v).length = w := by
  induction w with
  | zero => intro v; rfl
  | succ w ih => intro v; rw [toBytes, List.length_cons, ih]

/-- Frame property of `writeBytes`: positions outside the written region
`[off, off + bs.length)` are untouched. -/
theorem getElem?_writeBytes_outside (bs : List Nat) (r : List Nat) (off j : Nat)
    (h : j < off ∨ off + bs.length ≤ j) :
    (writeBytes r off bs)[j]? = r[j]? := by
  induction bs generalizing r off with
  | nil => rfl
  | cons b bs ih =>
    rw [List.length_cons] at h
    rw [writeBytes, ih _ _ (by omega), List.getElem?_set_ne (by omega)]

/-- Reading back a position inside the written region returns the written
byte, provided the region lies inside the buffer. -/
theorem getElem?_writeBytes_inside (bs : List Nat) (r : List Nat) (off i : Nat)
    (hi : i < bs.length) (hlen : off + bs.length ≤ r.length) :
    (writeBytes r off bs)[off + i]? = bs[i]? := by
  induction bs generalizing r off i with
  | nil => exact absurd hi (by simp)
  | cons b bs ih =>
    rw [List.length_cons] at hi hlen
    cases i with
    | zero =>
      rw [writeBytes,
        getElem?_writeBytes_outside _ _ _ _ (Or.inl (by omega)),
        Nat.add_zero, List.getElem?_set_self (by omega), List.getElem?_cons_zero]
    | succ i =>
      have : off + (i + 1) = (off + 1) + i := by omega
      rw [writeBytes, this, ih _ _ _ (by omega) (by rw [List.length_set]; omega),
        List.getElem?_cons_succ]

/-- Every little-endian read of `w` bytes is below `256 ^ w` (fields read
as `uint16`/`uint32`/`uint64` stay in range). -/
theorem readLE_lt (r : List Nat) : ∀ (w off : Nat), readLE r off w < 256 ^ w := by
  intro w
  induction w with
  | zero => intro off; simp [readLE]
  | succ w ih =>
    intro off
    have hb : readByte r off < 256 := Nat.mod_lt _ (by omega)
    have hr := ih (off + 1)
    calc readByte r off + 256 * readLE r (off + 1) w
        < 256 * (readLE r (off + 1) w + 1) := by omega
      _ ≤ 256 * 256 ^ w := by
          exact Nat.mul_le_mul_left 256 (by omega)
      _ = 256 ^ (w + 1) := (pow_succ' 256 w).symm

/-- Read-back of a little-endian write: decoding the freshly written field
returns the value reduced to the field's width. -/
theorem readLE_writeLE (w : Nat) : ∀ (r : List Nat) (off v : Nat),
    off + w ≤ r.length →
    readLE (writeLE r off w v) off w = v % 256 ^ w := by
  induction w with
  | zero => intro r off v _; simp [readLE, writeLE, toBytes, writeBytes, Nat.mod_one]
  | succ w ih =>
    intro r off v h
    rw [writeLE, toBytes, writeBytes, readLE]
    have hfirst :
        readByte (writeBytes (r.set off (v % 256)) (off + 1) (toBytes w (v / 256))) off
          = v % 256 := by
      rw [readByte,
        getElem?_writeBytes_outside _ _ _ _ (Or.inl (by omega)),
        List.getElem?_set_self (by omega)]
      show v % 256 % 256 = v % 256
      omega
    have hrest :
        readLE (writeBytes (r.set off (v % 256)) (off + 1) (toBytes w (v / 256))) (off + 1) w
          = v / 256 % 256 ^ w := by
      have := ih (r.set off (v % 256)) (off + 1) (v / 256)
        (by rw [List.length_set]; omega)
      rwa [writeLE] at this
    rw [hfirst, hrest, pow_succ' 256 w, Nat.mod_mul]

/-- Read-back at the exact field width: setters of `uint16`/`uint32`/
`uint64` fields round-trip values that fit the field. -/
theorem roundtrip_int (r : List Nat) (off w v : Nat) (h : off + w ≤ r.length)
    (hv : v < 256 ^ w) :
    readLE (writeLE r off w v) off w = v := by
  rw [readLE_writeLE w r off v h, Nat.mod_eq_of_lt hv]

/-- Frame property of a little-endian field write. -/
theorem setter_frame (r : List Nat) (off w v j : Nat) (h : j < off ∨ off + w ≤ j) :
    (writeLE r off w v)[j]? = r[j]? :=
  getElem?_writeBytes_outside _ _ _ _ (by rw [length_toBytes]; omega)

/-- The instrumented execution never hits a bounds failure, returns the
same verdict as the pure `Valid`, and leaves the memory unchanged. -/
theorem validChecked_eq_some (cl : List Nat → Nat → Bool) (r : List Nat) :
    ValidChecked cl r = some (Valid cl r, r) := by
  by_cases h64 : r.length < 64
  · rw [ValidChecked, if_pos h64, Valid, if_pos h64]
  · have e0 : readN r 0 2 = some (readLE r 0 2, r) := by
      rw [readN, if_pos (by omega)]
    have e56 : readN r 56 2 = some (readLE r 56 2, r) := by
      rw [readN, if_pos (by omega)]
    have e58 : readN r 58 2 = some (readLE r 58 2, r) := by
      rw [readN, if_pos (by omega)]
    have e4 : readN r 4 2 = some (readLE r 4 2, r) := by
      rw [readN, if_pos (by omega)]
    have e60 : readN r 60 4 = some (readLE r 60 4, r) := by
      rw [readN, if_pos (by omega)]
    have e6 : readN r 6 2 = some (readLE r 6 2, r) := by
      rw [readN, if_pos (by omega)]
    rw [ValidChecked, Valid, if_neg h64, if_neg h64, e0, Option.some_bind]
    by_cases hsz : readLE r 0 2 ≠ 65
    · rw [if_pos hsz, if_pos (show Size r ≠ 65 from hsz)]
    · rw [if_neg hsz, if_neg (show ¬ Size r ≠ 65 from hsz), e56, Option.some_bind,
        e58, Option.some_bind]
      by_cases hsb : readLE r 56 2 + readLE r 58 2 > r.length
      · rw [if_pos hsb,
          if_pos (show SecurityBufferOffset r + SecurityBufferLength r > r.length from hsb)]
      · rw [if_neg hsb,
          if_neg (show ¬ SecurityBufferOffset r + SecurityBufferLength r > r.length from hsb),
          e4, Option.some_bind]
        by_cases hdr : readLE r 4 2 = SMB311
        · rw [if_pos hdr, if_pos (show DialectRevision r = SMB311 from hdr),
            e60, Option.some_bind, e6, Option.some_bind]
          by_cases hmin : readLE r 60 4 + readLE r 6 2 * ContextHeaderLength > r.length
          · rw [if_pos hmin,
              if_pos (show ContextOffset r + ContextCount r * ContextHeaderLength > r.length
                from hmin)]
          · have ed : dropN r (readLE r 60 4) = some (r.drop (readLE r 60 4), r) := by
              rw [dropN, if_pos (by omega)]
            rw [if_neg hmin,
              if_neg (show ¬ ContextOffset r + ContextCount r * ContextHeaderLength > r.length
                from hmin),
              e60, Option.some_bind, ed, Option.some_bind,
              e6, Option.some_bind]
            by_cases hcl : cl (r.drop (readLE r 60 4)) (readLE r 6 2)
            · rw [if_neg (by simpa using hcl),
                if_neg (show ¬ ¬ cl (ContextList r) (ContextCount r) by simpa [ContextList] using hcl)]
            · rw [if_pos (by simpa using hcl),
                if_pos (show ¬ cl (ContextList r) (ContextCount r) by simpa [ContextList] using hcl)]
        · rw [if_neg hdr, if_neg (show ¬ DialectRevision r = SMB311 from hdr)]

/-- Round-trip of the 16-byte server identifier. -/
theorem serverID_roundtrip (r id : List Nat) (h : 24 ≤ r.length)
    (hlen : id.length = 16) (hb : ∀ b ∈ id, b < 256) :
    ServerID (SetServerID r id) = id := by
  have htake : id.take 16 = id := List.take_of_length_le (by omega)
  rw [ServerID, SetServerID, htake]
  apply List.ext_getElem?
  intro i
  rw [List.getElem?_map, goSlice, List.getElem?_drop, List.getElem?_take]
  by_cases hi : i < 16
  · rw [if_pos (by omega),
      getElem?_writeBytes_inside id r 8 i (by omega) (by omega),
      List.getElem?_eq_getElem (show i < id.length by omega),
      Option.map_some']
    exact congrArg some (Nat.mod_eq_of_lt (hb _ (List.getElem_mem _)))
  · rw [if_neg (by omega), List.getElem?_eq_none (by omega), Option.map_none']

/-- Claim C1: for every buffer of length ≥ 64 whose StructureSize field is
65 and whose DialectRevision is not SMB 3.1.1, `Valid` is true iff
`SecurityBufferOffset + SecurityBufferLength ≤ length`, and that sum —
computed by Go in 64-bit `int` arithmetic — never wraps (it is below
`2 ^ 64`), so boundary equality passes and a one-byte-short buffer
fails. -/
theorem valid_iff_security_bound (cl : List Nat → Nat → Bool) (r : List Nat)
    (h64 : 64 ≤ r.length) (hs : Size r = 65) (hd : DialectRevision r ≠ SMB311) :
    (Valid cl r = true ↔
      SecurityBufferOffset r + SecurityBufferLength r ≤ r.length) ∧
    (SecurityBufferOffset r + SecurityBufferLength r) % 2 ^ 64
      = SecurityBufferOffset r + SecurityBufferLength r := by
  constructor
  · rw [Valid, if_neg (by omega), if_neg (by simp [hs])]
    by_cases hb : SecurityBufferOffset r + SecurityBufferLength r > r.length
    · rw [if_pos hb]
      simp only [Bool.false_eq_true, false_iff, not_le]
      exact hb
    · rw [if_neg hb, if_neg hd]
      simp only [true_iff]
      omega
  · have h1 : SecurityBufferOffset r < 256 ^ 2 := readLE_lt r 2 56
    have h2 : SecurityBufferLength r < 256 ^ 2 := readLE_lt r 2 58
    have e1 : (256 : Nat) ^ 2 = 65536 := by norm_num
    have e2 : (2 : Nat) ^ 64 = 18446744073709551616 := by norm_num
    omega

/-- Claim C1 witness: a concrete 64-byte buffer with
`SecurityBufferOffset + SecurityBufferLength = 64` exactly. -/
theorem valid_iff_security_bound_witness :
    (Valid clTrue bufA = true ↔
      SecurityBufferOffset bufA + SecurityBufferLength bufA ≤ bufA.length) ∧
    (SecurityBufferOffset bufA + SecurityBufferLength bufA) % 2 ^ 64
      = SecurityBufferOffset bufA + SecurityBufferLength bufA :=
  valid_iff_security_bound clTrue bufA (by decide) (by decide) (by decide)

/-- Claim C2: for an SMB 3.1.1 buffer passing the earlier checks, `Valid`
is false whenever `ContextOffset + ContextCount * 8` exceeds the buffer
length; that quantity — computed by Go in 64-bit `uint` arithmetic —
never wraps (it is below `2 ^ 64`); and with `ContextCount = 0` the check
degenerates to `ContextOffset ≤ length`, after which `Valid` is decided
by the collaborator alone. -/
theorem valid_min_length_check (cl : List Nat → Nat → Bool) (r : List Nat)
    (h64 : 64 ≤ r.length) (hs : Size r = 65)
    (hsb : SecurityBufferOffset r + SecurityBufferLength r ≤ r.length)
    (hd : DialectRevision r = SMB311) :
    (r.length < ContextOffset r + ContextCount r * ContextHeaderLength →
      Valid cl r = false) ∧
    (ContextOffset r + ContextCount r * ContextHeaderLength) % 2 ^ 64
      = ContextOffset r + ContextCount r * ContextHeaderLength ∧
    (ContextCount r = 0 → ContextOffset r ≤ r.length →
      Valid cl r = cl (ContextList r) 0) := by
  refine ⟨?_, ?_, ?_⟩
  · intro hmin
    rw [Valid, if_neg (by omega), if_neg (by simp [hs]), if_neg (by omega),
      if_pos hd, if_pos hmin]
  · have h1 : ContextOffset r < 256 ^ 4 := readLE_lt r 4 60
    have h2 : ContextCount r < 256 ^ 2 := readLE_lt r 2 6
    have e1 : (256 : Nat) ^ 4 = 4294967296 := by norm_num
    have e2 : (256 : Nat) ^ 2 = 65536 := by norm_num
    have e3 : (2 : Nat) ^ 64 = 18446744073709551616 := by norm_num
    simp only [ContextHeaderLength]
    omega
  · intro hcc hco
    rw [Valid, if_neg (by omega), if_neg (by simp [hs]), if_neg (by omega),
      if_pos hd, if_neg (by simp only [hcc, ContextHeaderLength]; omega), hcc]
    cases hcl : cl (ContextList r) 0 with
    | false => rw [if_pos (by simp [hcl])]
    | true => rw [if_neg (by simp [hcl])]

/-- Claim C2 witness: a concrete 64-byte SMB 3.1.1 buffer with
`ContextCount = 0` and `ContextOffset = 64`. -/
theorem valid_min_length_check_witness :
    Valid clTrue bufB = clTrue (ContextList bufB) 0 :=
  (valid_min_length_check clTrue bufB (by decide) (by decide) (by decide)
    (by decide)).2.2 (by decide) (by decide)

/-- Claim C3: for an SMB 3.1.1 buffer passing the length, StructureSize,
security-buffer, and minimum-length checks, `Valid` equals the verdict of
the context-list collaborator invoked on the context-list view and
`ContextCount`. -/
theorem valid_delegates_to_context_list (cl : List Nat → Nat → Bool)
    (r : List Nat) (h64 : 64 ≤ r.length) (hs : Size r = 65)
    (hsb : SecurityBufferOffset r + SecurityBufferLength r ≤ r.length)
    (hd : DialectRevision r = SMB311)
    (hmin : ContextOffset r + ContextCount r * ContextHeaderLength ≤ r.length) :
    Valid cl r = cl (ContextList r) (ContextCount r) := by
  rw [Valid, if_neg (by omega), if_neg (by simp [hs]), if_neg (by omega),
    if_pos hd, if_neg (by omega)]
  cases hcl : cl (ContextList r) (ContextCount r) with
  | false => rw [if_pos (by simp [hcl])]
  | true => rw [if_neg (by simp [hcl])]

/-- Claim C3 witness: the 80-byte SMB 3.1.1 buffer with two contexts at
offset 64, evaluated against the accepting collaborator. -/
theorem valid_delegates_to_context_list_witness :
    Valid clTrue bufC = clTrue (ContextList bufC) (ContextCount bufC) :=
  valid_delegates_to_context_list clTrue bufC (by decide) (by decide)
    (by decide) (by decide) (by decide)

/-- Claim C4: every buffer shorter than 64 bytes is invalid. -/
theorem valid_short_buffer (cl : List Nat → Nat → Bool) (r : List Nat)
    (h : r.length < 64) : Valid cl r = false := by
  rw [Valid, if_pos h]

/-- Claim C4 witness: the empty buffer. -/
theorem valid_short_buffer_witness : Valid clTrue [] = false :=
  valid_short_buffer clTrue [] (by decide)

/-- Claim C5: every buffer of length ≥ 64 whose StructureSize field is not
65 is invalid, whatever the other fields hold. -/
theorem valid_wrong_structure_size (cl : List Nat → Nat → Bool)
    (r : List Nat) (h64 : 64 ≤ r.length) (hs : Size r ≠ 65) :
    Valid cl r = false := by
  rw [Valid, if_neg (by omega), if_pos hs]

/-- Claim C5 witness: a 64-byte buffer with StructureSize 66. -/
theorem valid_wrong_structure_size_witness : Valid clTrue bufD = false :=
  valid_wrong_structure_size clTrue bufD (by decide) (by decide)

/-- Claim C6: the bounds-instrumented execution of `Valid` succeeds on
every buffer, of any length: no byte access it performs is out of bounds,
because every fixed-field read is guarded by the length ≥ 64 check and
the context-list slice is guarded by the minimum-length check. -/
theorem validChecked_total (cl : List Nat → Nat → Bool) (r : List Nat) :
    (ValidChecked cl r).isSome = true := by
  rw [validChecked_eq_some]
  rfl

/-- Claim C10: `Valid` is pure and deterministic — the instrumented
execution always returns the verdict of the pure predicate (so repeated
invocations on the same bytes agree) and hands back the memory
unchanged. -/
theorem valid_pure_deterministic (cl : List Nat → Nat → Bool) (r : List Nat) :
    (ValidChecked cl r).map Prod.fst = some (Valid cl r) ∧
    (ValidChecked cl r).map Prod.snd = some r := by
  rw [validChecked_eq_some]
  exact ⟨rfl, rfl⟩

/-- Claim C7: every fixed header field round-trips through its setter and
getter on a buffer of length ≥ 64 — bit-exact for the flag sets,
exact-equal for the integers and the 16-byte server identifier, and
tick-exact for the two timestamps. -/
theorem roundtrip_all_fields (r : List Nat) (h64 : 64 ≤ r.length) :
    (∀ v, v < 65536 → Size (SetSize r v) = v) ∧
    (∀ v, v < 65536 → SecurityMode (SetSecurityMode r v) = v) ∧
    (∀ v, v < 65536 → DialectRevision (SetDialectRevision r v) = v) ∧
    (∀ v, v < 65536 → ContextCount (SetContextCount r v) = v) ∧
    (∀ id, id.length = 16 → (∀ b ∈ id, b < 256) →
      ServerID (SetServerID r id) = id) ∧
    (∀ v, v < 4294967296 → Capabilities (SetCapabilities r v) = v) ∧
    (∀ v, v < 4294967296 → MaxTransactSize (SetMaxTransactSize r v) = v) ∧
    (∀ v, v < 4294967296 → MaxReadSize (SetMaxReadSize r v) = v) ∧
    (∀ v, v < 4294967296 → MaxWriteSize (SetMaxWriteSize r v) = v) ∧
    (∀ v, v < 18446744073709551616 → SystemTime (SetSystemTime r v) = v) ∧
    (∀ v, v < 18446744073709551616 →
      ServerStartTime (SetServerStartTime r v) = v) ∧
    (∀ v, v < 65536 → SecurityBufferOffset (SetSecurityBufferOffset r v) = v) ∧
    (∀ v, v < 65536 → SecurityBufferLength (SetSecurityBufferLength r v) = v) ∧
    (∀ v, v < 4294967296 → ContextOffset (SetContextOffset r v) = v) := by
  have e2 : (256 : Nat) ^ 2 = 65536 := by norm_num
  have e4 : (256 : Nat) ^ 4 = 4294967296 := by norm_num
  have e8 : (256 : Nat) ^ 8 = 18446744073709551616 := by norm_num
  refine ⟨?_, ?_, ?_, ?_, ?_, ?_, ?_, ?_, ?_, ?_, ?_, ?_, ?_, ?_⟩
  · intro v hv; exact roundtrip_int r 0 2 v (by omega) (by omega)
  · intro v hv; exact roundtrip_int r 2 2 v (by omega) (by omega)
  · intro v hv; exact roundtrip_int r 4 2 v (by omega) (by omega)
  · intro v hv; exact roundtrip_int r 6 2 v (by omega) (by omega)
  · intro id hl hb; exact serverID_roundtrip r id (by omega) hl hb
  · intro v hv; exact roundtrip_int r 24 4 v (by omega) (by omega)
  · intro v hv; exact roundtrip_int r 28 4 v (by omega) (by omega)
  · intro v hv; exact roundtrip_int r 32 4 v (by omega) (by omega)
  · intro v hv; exact roundtrip_int r 36 4 v (by omega) (by omega)
  · intro v hv; exact roundtrip_int r 40 8 v (by omega) (by omega)
  · intro v hv; exact roundtrip_int r 48 8 v (by omega) (by omega)
  · intro v hv; exact roundtrip_int r 56 2 v (by omega) (by omega)
  · intro v hv; exact roundtrip_int r 58 2 v (by omega) (by omega)
  · intro v hv; exact roundtrip_int r 60 4 v (by omega) (by omega)

/-- Claim C7 witness: concrete round-trips of a 16-bit field, a 64-bit
timestamp field, and the server identifier on a 64-byte zero buffer. -/
theorem roundtrip_all_fields_witness :
    Size (SetSize (List.replicate 64 0) 513) = 513 ∧
    SystemTime (SetSystemTime (List.replicate 64 0) 1234567890) = 1234567890 ∧
    ServerID (SetServerID (List.replicate 64 0) (List.replicate 16 7))
      = List.replicate 16 7 :=
  ⟨(roundtrip_all_fields (List.replicate 64 0) (by decide)).1 513 (by decide),
   (roundtrip_all_fields (List.replicate 64 0) (by decide)).2.2.2.2.2.2.2.2.2.1
     1234567890 (by decide),
   (roundtrip_all_fields (List.replicate 64 0) (by decide)).2.2.2.2.1
     (List.replicate 16 7) (by decide) (by decide)⟩

/-- Claim C8: each field setter writes only its declared offset/width
region; every byte outside that region is unchanged (getters and `Valid`
are pure functions of the buffer and mutate nothing, as `ValidChecked`
separately certifies). -/
theorem setter_frame_all_fields (r : List Nat) (_h64 : 64 ≤ r.length) :
    (∀ v j, 2 ≤ j → (SetSize r v)[j]? = r[j]?) ∧
    (∀ v j, j < 2 ∨ 4 ≤ j → (SetSecurityMode r v)[j]? = r[j]?) ∧
    (∀ v j, j < 4 ∨ 6 ≤ j → (SetDialectRevision r v)[j]? = r[j]?) ∧
    (∀ v j, j < 6 ∨ 8 ≤ j → (SetContextCount r v)[j]? = r[j]?) ∧
    (∀ id j, j < 8 ∨ 24 ≤ j → (SetServerID r id)[j]? = r[j]?) ∧
    (∀ v j, j < 24 ∨ 28 ≤ j → (SetCapabilities r v)[j]? = r[j]?) ∧
    (∀ v j, j < 28 ∨ 32 ≤ j → (SetMaxTransactSize r v)[j]? = r[j]?) ∧
    (∀ v j, j < 32 ∨ 36 ≤ j → (SetMaxReadSize r v)[j]? = r[j]?) ∧
    (∀ v j, j < 36 ∨ 40 ≤ j → (SetMaxWriteSize r v)[j]? = r[j]?) ∧
    (∀ v j, j < 40 ∨ 48 ≤ j → (SetSystemTime r v)[j]? = r[j]?) ∧
    (∀ v j, j < 48 ∨ 56 ≤ j → (SetServerStartTime r v)[j]? = r[j]?) ∧
    (∀ v j, j < 56 ∨ 58 ≤ j → (SetSecurityBufferOffset r v)[j]? = r[j]?) ∧
    (∀ v j, j < 58 ∨ 60 ≤ j → (SetSecurityBufferLength r v)[j]? = r[j]?) ∧
    (∀ v j, j < 60 ∨ 64 ≤ j → (SetContextOffset r v)[j]? = r[j]?) := by
  refine ⟨?_, ?_, ?_, ?_, ?_, ?_, ?_, ?_, ?_, ?_, ?_, ?_, ?_, ?_⟩
  · intro v j hj; exact setter_frame r 0 2 v j (by omega)
  · intro v j hj; exact setter_frame r 2 2 v j (by omega)
  · intro v j hj; exact setter_frame r 4 2 v j (by omega)
  · intro v j hj; exact setter_frame r 6 2 v j (by omega)
  · intro id j hj
    exact getElem?_writeBytes_outside _ _ _ _
      (by have := List.length_take_le 16 id; omega)
  · intro v j hj; exact setter_frame r 24 4 v j (by omega)
  · intro v j hj; exact setter_frame r 28 4 v j (by omega)
  · intro v j hj; exact setter_frame r 32 4 v j (by omega)
  · intro v j hj; exact setter_frame r 36 4 v j (by omega)
  · intro v j hj; exact setter_frame r 40 8 v j (by omega)
  · intro v j hj; exact setter_frame r 48 8 v j (by omega)
  · intro v j hj; exact setter_frame r 56 2 v j (by omega)
  · intro v j hj; exact setter_frame r 58 2 v j (by omega)
  · intro v j hj; exact setter_frame r 60 4 v j (by omega)

/-- Claim C8 witness: byte 68 of a 70-byte buffer survives a `SetSize`
call. -/
theorem setter_frame_all_fields_witness :
    (SetSize (List.replicate 70 7) 513)[68]? = (List.replicate 70 7)[68]? :=
  (setter_frame_all_fields (List.replicate 70 7) (by decide)).1 513 68 (by decide)

/-- Claim C9: whenever the security-buffer range lies inside the buffer,
`SecurityBuffer` returns exactly the bytes of
`[SecurityBufferOffset, SecurityBufferOffset + SecurityBufferLength)`:
its length is `SecurityBufferLength` and its `i`-th byte is the buffer's
byte at `SecurityBufferOffset + i`. -/
theorem securityBuffer_exact_range (r : List Nat)
    (h : SecurityBufferOffset r + SecurityBufferLength r ≤ r.length) :
    (SecurityBuffer r).length = SecurityBufferLength r ∧
    ∀ i, i < SecurityBufferLength r →
      (SecurityBuffer r)[i]? = r[SecurityBufferOffset r + i]? := by
  constructor
  · rw [SecurityBuffer, goSlice, List.length_drop, List.length_take]
    omega
  · intro i hi
    rw [SecurityBuffer, goSlice, List.getElem?_drop, List.getElem?_take,
      if_pos (by omega)]

/-- Claim C9 witness: the 66-byte buffer whose two-byte security buffer
sits at offset 64. -/
theorem securityBuffer_exact_range_witness :
    (SecurityBuffer bufE).length = SecurityBufferLength bufE ∧
    (SecurityBuffer bufE)[0]? = bufE[SecurityBufferOffset bufE + 0]? :=
  ⟨(securityBuffer_exact_range bufE (by decide)).1,
   (securityBuffer_exact_range bufE (by decide)).2 0 (by decide)⟩

end Smbnego
